import Mathlib

/-!
Verification of the documentation notebooks of the quimb repository excerpt.

The source under src/ consists of exactly two Jupyter notebooks:
  src/docs/dynamics and evolution.ipynb   (282 lines)
  src/docs/calculating quantities.ipynb   (195 lines)
Both are embedded below, twice: verbatim as their lists of raw file lines
(`dynamicsRaw`, `calcRaw`), and structurally as their lists of cells
(`dynamicsCells`, `calcCells`), each cell carrying its cell type, its source
lines and the text lines of its recorded outputs (trailing newlines stripped).

The quimb library itself (the Evolution class, the approximate spectral
functions, the tensor backend) is not part of src/; where a claim is about
that library's behaviour, the relevant behaviour is modelled from the
notebook text, in definitions whose doc comments start with
"Modelled from the spec".
-/

set_option maxRecDepth 100000

namespace QuimbDocs

/-- `occursInChars pat hay`: does `pat` occur as a contiguous sublist of `hay`? -/
def occursInChars (pat : List Char) : List Char → Bool
  | [] => pat.isEmpty
  | c :: t => List.isPrefixOf pat (c :: t) || occursInChars pat t

/-- `occursIn hay pat`: does the string `pat` occur as a substring of `hay`? -/
def occursIn (hay pat : String) : Bool := occursInChars pat.data hay.data

/-- Does some line of `ls` contain `pat` as a substring? -/
def anyLine (ls : List String) (pat : String) : Bool := ls.any fun l => occursIn l pat

/-- Number of (possibly overlapping) occurrences of `pat` in `hay`. -/
def countOccurChars (pat : List Char) : List Char → Nat
  | [] => 0
  | c :: t => (if List.isPrefixOf pat (c :: t) then 1 else 0) + countOccurChars pat t

/-- Total number of occurrences of `pat` over all lines of `ls`. -/
def countInLines (ls : List String) (pat : String) : Nat :=
  (ls.map fun l => countOccurChars pat.data l.data).sum

/-- Does the character list contain a floating-point literal fragment,
i.e. a digit, a dot and a digit in a row? -/
def hasFloatChars : List Char → Bool
  | a :: b :: c :: t => (a.isDigit && b == '.' && c.isDigit) || hasFloatChars (b :: c :: t)
  | _ => false

/-- Does the string contain a floating-point literal fragment? -/
def hasFloatLit (s : String) : Bool := hasFloatChars s.data

/-- `lineStarts l pre`: does line `l` start with the string `pre`? -/
def lineStarts (l pre : String) : Bool := List.isPrefixOf pre.data l.data

/-- The character code, with upper-case ASCII letters mapped to lower case. -/
def lowNat (c : Char) : Nat :=
  if 65 ≤ c.toNat && c.toNat ≤ 90 then c.toNat + 32 else c.toNat

/-- The lower-cased character codes of a string. -/
def lowerCodes (s : String) : List Nat := s.data.map lowNat

/-- `occursInCodes pat hay`: does `pat` occur as a contiguous sublist of `hay`? -/
def occursInCodes (pat : List Nat) : List Nat → Bool
  | [] => pat.isEmpty
  | c :: t => List.isPrefixOf pat (c :: t) || occursInCodes pat t

/-- `occursInsen hay pat`: does `pat` occur in `hay`, ignoring ASCII case? -/
def occursInsen (hay pat : String) : Bool :=
  occursInCodes (lowerCodes pat) (lowerCodes hay)

/-- The three kinds of cell occurring in the two notebooks. -/
inductive CellType where
  | raw
  | markdown
  | code
deriving DecidableEq, Inhabited

/-- A notebook cell: its type, its source lines, and the text lines of its
recorded outputs (stream text and execute_result text/plain, flattened). -/
structure Cell where
  cellType : CellType
  source : List String
  outputTexts : List String
deriving DecidableEq, Inhabited

/-- The file src/docs/dynamics and evolution.ipynb, embedded verbatim as its list of lines. -/
def dynamicsRaw : List String := [
  "\x7b",
  " \"cells\": [",
  "  \x7b",
  "   \"cell_type\": \"raw\",",
  "   \"metadata\": \x7b",
  "    \"raw_mimetype\": \"text/restructuredtext\"",
  "   \x7d,",
  "   \"source\": [",
  "    \"##############\\n\",",
  "    \"Time Evolution\\n\",",
  "    \"##############\\n\",",
  "    \"\\n\",",
  "    \"Time evolutions in \x60\x60quimb\x60\x60 are handled by the class :class:\x60~quimb.evo.Evolution\x60, which is initialized with a starting state and hamiltonian.\\n\",",
  "    \"\\n\",",
  "    \"Basic Usage\\n\",",
  "    \"~~~~~~~~~~~\\n\",",
  "    \"\\n\",",
  "    \"Set up the :class:\x60~quimb.evo.Evolution\x60 object with a initial state and hamiltonian.\"",
  "   ]",
  "  \x7d,",
  "  \x7b",
  "   \"cell_type\": \"code\",",
  "   \"execution_count\": 1,",
  "   \"metadata\": \x7b\x7d,",
  "   \"outputs\": [],",
  "   \"source\": [",
  "    \"from quimb import *\\n\",",
  "    \"\\n\",",
  "    \"p0 = rand_ket(2**10)\\n\",",
  "    \"h = ham_heis(10, sparse=True)\\n\",",
  "    \"evo = Evolution(p0, h)\"",
  "   ]",
  "  \x7d,",
  "  \x7b",
  "   \"cell_type\": \"markdown\",",
  "   \"metadata\": \x7b\x7d,",
  "   \"source\": [",
  "    \"\\n\",",
  "    \"Update it in a single shot to a new time and get the state,\"",
  "   ]",
  "  \x7d,",
  "  \x7b",
  "   \"cell_type\": \"code\",",
  "   \"execution_count\": 2,",
  "   \"metadata\": \x7b\x7d,",
  "   \"outputs\": [",
  "    \x7b",
  "     \"data\": \x7b",
  "      \"text/plain\": [",
  "       \"qarray([[-0.004895-0.003752j],\\n\",",
  "       \"        [-0.023103+0.013373j],\\n\",",
  "       \"        [ 0.025707-0.022719j],\\n\",",
  "       \"        ...,\\n\",",
  "       \"        [-0.018055+0.013348j],\\n\",",
  "       \"        [-0.013808+0.000646j],\\n\",",
  "       \"        [ 0.007784-0.027032j]])\"",
  "      ]",
  "     \x7d,",
  "     \"execution_count\": 2,",
  "     \"metadata\": \x7b\x7d,",
  "     \"output_type\": \"execute_result\"",
  "    \x7d",
  "   ],",
  "   \"source\": [",
  "    \"evo.update_to(1)\\n\",",
  "    \"evo.pt\"",
  "   ]",
  "  \x7d,",
  "  \x7b",
  "   \"cell_type\": \"markdown\",",
  "   \"metadata\": \x7b\x7d,",
  "   \"source\": [",
  "    \"Lazily generate the state at multiple times:\"",
  "   ]",
  "  \x7d,",
  "  \x7b",
  "   \"cell_type\": \"code\",",
  "   \"execution_count\": 3,",
  "   \"metadata\": \x7b\x7d,",
  "   \"outputs\": [",
  "    \x7b",
  "     \"name\": \"stdout\",",
  "     \"output_type\": \"stream\",",
  "     \"text\": [",
  "      \"0.0008819837257778465\\n\",",
  "      \"0.008018772696880647\\n\",",
  "      \"0.007921004468599528\\n\"",
  "     ]",
  "    \x7d",
  "   ],",
  "   \"source\": [",
  "    \"for pt in evo.at_times([2, 3, 4]):\\n\",",
  "    \"    print(expec(pt, p0))\"",
  "   ]",
  "  \x7d,",
  "  \x7b",
  "   \"cell_type\": \"raw\",",
  "   \"metadata\": \x7b",
  "    \"raw_mimetype\": \"text/restructuredtext\"",
  "   \x7d,",
  "   \"source\": [",
  "    \"Methods of Updating\\n\",",
  "    \"~~~~~~~~~~~~~~~~~~~\\n\",",
  "    \"\\n\",",
  "    \"There are three methods of updating the state:\\n\",",
  "    \"\\n\",",
  "    \"    - \x60\x60Evolution(..., method=\x27integrate\x27)\x60\x60: use definite integration. \\n\",",
  "    \"      Get system at each time step, only need action of Hamiltonian on \\n\",",
  "    \"      state. Generally efficient. For pure and mixed states. The \\n\",",
  "    \"      additional option \x60\x60int_small_step=\x7bFalse, True\x7d\x60\x60 determines \\n\",",
  "    \"      whether a low or high order adaptive stepping scheme is used, \\n\",",
  "    \"      giving naturally smaller or larger times steps. See \\n\",",
  "    \"      :class:\x60scipy.integrate.ode\x60 for details, \x60\x60False\x60\x60 corresponds \\n\",",
  "    \"      to \x60\x60\\\"dop853\\\"\x60\x60, \x60\x60True\x60\x60 to \x60\x60\\\"dopri5\\\"\x60\x60.\\n\",",
  "    \"\\n\",",
  "    \"    - \x60\x60Evolution(..., method=\x27solve\x27)\x60\x60. Diagonalize the hamiltonian, \\n\",",
  "    \"      which once done, allows quickly updating to arbitrary times. \\n\",",
  "    \"      Supports pure and mixed states, recomended for small systems.\\n\",",
  "    \"\\n\",",
  "    \"    -  \x60\x60Evolution(..., method=\x27expm\x27)\x60\x60: compute the evolved state \\n\",",
  "    \"       using the action of the matrix exponential in a \x27single shot\x27 \\n\",",
  "    \"       style. Only needs action of Hamiltonian, for very large systems \\n\",",
  "    \"       can use distributed MPI. Only for pure states.\\n\",",
  "    \"\\n\",",
  "    \"Computing on the fly\\n\",",
  "    \"~~~~~~~~~~~~~~~~~~~~\\n\",",
  "    \"\\n\",",
  "    \"Sometimes, if integrating, it is best to just query the state at time-steps chosen dynamically by the adaptive scheme. This is achieved using the \x60\x60compute\x60\x60 keyword supplied to \x60\x60Evolution\x60\x60. It can also just be a convenient way to set up calculations as well:\"",
  "   ]",
  "  \x7d,",
  "  \x7b",
  "   \"cell_type\": \"code\",",
  "   \"execution_count\": 4,",
  "   \"metadata\": \x7b\x7d,",
  "   \"outputs\": [",
  "    \x7b",
  "     \"name\": \"stderr\",",
  "     \"output_type\": \"stream\",",
  "     \"text\": [",
  "      \"100%|██████████| 100/100 [00:00<00:00, 3814.84%/s]\\n\"",
  "     ]",
  "    \x7d",
  "   ],",
  "   \"source\": [",
  "    \"p0 = rand_product_state(10)\\n\",",
  "    \"h = ham_heis(10, sparse=True)\\n\",",
  "    \"\\n\",",
  "    \"dims = [2] * 10\\n\",",
  "    \"sysa, sysb = (0, 1), (2, 3)\\n\",",
  "    \"\\n\",",
  "    \"def calc_t_and_logneg(t, pt):\\n\",",
  "    \"    ln = logneg_subsys(pt, dims, sysa, sysb)\\n\",",
  "    \"    return t, ln\\n\",",
  "    \"\\n\",",
  "    \"evo = Evolution(p0, h, compute=calc_t_and_logneg, progbar=True)\\n\",",
  "    \"evo.update_to(1)\\n\",",
  "    \"\\n\",",
  "    \"ts, lns = zip(*evo.results)\"",
  "   ]",
  "  \x7d,",
  "  \x7b",
  "   \"cell_type\": \"code\",",
  "   \"execution_count\": 5,",
  "   \"metadata\": \x7b\x7d,",
  "   \"outputs\": [",
  "    \x7b",
  "     \"data\": \x7b",
  "      \"text/plain\": [",
  "       \"(0.0, 0.26290682760247974, 0.5233369775481265, 0.7900587131899766, 1.0)\"",
  "      ]",
  "     \x7d,",
  "     \"execution_count\": 5,",
  "     \"metadata\": \x7b\x7d,",
  "     \"output_type\": \"execute_result\"",
  "    \x7d",
  "   ],",
  "   \"source\": [",
  "    \"ts\"",
  "   ]",
  "  \x7d,",
  "  \x7b",
  "   \"cell_type\": \"code\",",
  "   \"execution_count\": 6,",
  "   \"metadata\": \x7b\x7d,",
  "   \"outputs\": [",
  "    \x7b",
  "     \"data\": \x7b",
  "      \"text/plain\": [",
  "       \"(0.0,\\n\",",
  "       \" 0.2671006185064719,\\n\",",
  "       \" 0.47658641897909465,\\n\",",
  "       \" 0.6360265342188309,\\n\",",
  "       \" 0.7230360577935351)\"",
  "      ]",
  "     \x7d,",
  "     \"execution_count\": 6,",
  "     \"metadata\": \x7b\x7d,",
  "     \"output_type\": \"execute_result\"",
  "    \x7d",
  "   ],",
  "   \"source\": [",
  "    \"lns\"",
  "   ]",
  "  \x7d,",
  "  \x7b",
  "   \"cell_type\": \"raw\",",
  "   \"metadata\": \x7b",
  "    \"raw_mimetype\": \"text/restructuredtext\"",
  "   \x7d,",
  "   \"source\": [",
  "    \"If a dict of callables is supplied to \x60\x60compute\x60\x60, (each should take two arguments, the time, and the state, as above), \x60\x60Evolution.results\x60\x60 will itself be a dictionary containing the results of each function at each time step, under the respective key. This can be more convenient:\"",
  "   ]",
  "  \x7d,",
  "  \x7b",
  "   \"cell_type\": \"code\",",
  "   \"execution_count\": 7,",
  "   \"metadata\": \x7b\x7d,",
  "   \"outputs\": [",
  "    \x7b",
  "     \"name\": \"stderr\",",
  "     \"output_type\": \"stream\",",
  "     \"text\": [",
  "      \"100%|██████████| 100/100 [00:00<00:00, 19194.14%/s]\\n\"",
  "     ]",
  "    \x7d",
  "   ],",
  "   \"source\": [",
  "    \"def calc_t(t, _):\\n\",",
  "    \"    return t\\n\",",
  "    \"\\n\",",
  "    \"def calc_logneg(_, pt):\\n\",",
  "    \"    return logneg_subsys(pt, [2]*10, 0, 1)\\n\",",
  "    \"\\n\",",
  "    \"evo = Evolution(p0, h, compute=\x7b\x27t\x27: calc_t, \x27ln\x27: calc_logneg\x7d, progbar=True)\\n\",",
  "    \"evo.update_to(1)\"",
  "   ]",
  "  \x7d,",
  "  \x7b",
  "   \"cell_type\": \"code\",",
  "   \"execution_count\": 8,",
  "   \"metadata\": \x7b\x7d,",
  "   \"outputs\": [",
  "    \x7b",
  "     \"data\": \x7b",
  "      \"text/plain\": [",
  "       \"\x7b\x27t\x27: [0.0, 0.26290682760247974, 0.5233369775481265, 0.7900587131899766, 1.0],\\n\",",
  "       \" \x27ln\x27: [0.0, 0.08526629069718968, 0.06419361844053166, 0.0, 0.0]\x7d\"",
  "      ]",
  "     \x7d,",
  "     \"execution_count\": 8,",
  "     \"metadata\": \x7b\x7d,",
  "     \"output_type\": \"execute_result\"",
  "    \x7d",
  "   ],",
  "   \"source\": [",
  "    \"evo.results\"",
  "   ]",
  "  \x7d",
  " ],",
  " \"metadata\": \x7b",
  "  \"celltoolbar\": \"Raw Cell Format\",",
  "  \"kernelspec\": \x7b",
  "   \"display_name\": \"Python 3\",",
  "   \"language\": \"python\",",
  "   \"name\": \"python3\"",
  "  \x7d,",
  "  \"language_info\": \x7b",
  "   \"codemirror_mode\": \x7b",
  "    \"name\": \"ipython\",",
  "    \"version\": 3",
  "   \x7d,",
  "   \"file_extension\": \".py\",",
  "   \"mimetype\": \"text/x-python\",",
  "   \"name\": \"python\",",
  "   \"nbconvert_exporter\": \"python\",",
  "   \"pygments_lexer\": \"ipython3\",",
  "   \"version\": \"3.6.6\"",
  "  \x7d",
  " \x7d,",
  " \"nbformat\": 4,",
  " \"nbformat_minor\": 2",
  "\x7d"]

/-- The file src/docs/calculating quantities.ipynb, embedded verbatim as its list of lines. -/
def calcRaw : List String := [
  "\x7b",
  " \"cells\": [",
  "  \x7b",
  "   \"cell_type\": \"raw\",",
  "   \"metadata\": \x7b",
  "    \"raw_mimetype\": \"text/restructuredtext\"",
  "   \x7d,",
  "   \"source\": [",
  "    \"######################\\n\",",
  "    \"Calculating Quantities\\n\",",
  "    \"######################\\n\",",
  "    \"\\n\",",
  "    \"There are various built-in functions to calculate quantities, not limited to:\\n\",",
  "    \"\\n\",",
  "    \"- :func:\x60~quimb.calc.fidelity\x60\\n\",",
  "    \"- :func:\x60~quimb.calc.purify\x60\\n\",",
  "    \"- :func:\x60~quimb.calc.dephase\x60\\n\",",
  "    \"- :func:\x60~quimb.calc.entropy\x60\\n\",",
  "    \"- :func:\x60~quimb.calc.mutinf\x60\\n\",",
  "    \"- :func:\x60~quimb.calc.mutinf_subsys\x60\\n\",",
  "    \"- :func:\x60~quimb.calc.schmidt_gap\x60\\n\",",
  "    \"- :func:\x60~quimb.calc.tr_sqrt\x60\\n\",",
  "    \"- :func:\x60~quimb.calc.partial_transpose\x60\\n\",",
  "    \"- :func:\x60~quimb.calc.logneg\x60\\n\",",
  "    \"- :func:\x60~quimb.calc.logneg_subsys\x60\\n\",",
  "    \"- :func:\x60~quimb.calc.negativity\x60\\n\",",
  "    \"- :func:\x60~quimb.calc.concurrence\x60\\n\",",
  "    \"- :func:\x60~quimb.calc.one_way_classical_information\x60\\n\",",
  "    \"- :func:\x60~quimb.calc.quantum_discord\x60\\n\",",
  "    \"- :func:\x60~quimb.calc.trace_distance\x60\\n\",",
  "    \"- :func:\x60~quimb.calc.decomp\x60\\n\",",
  "    \"- :func:\x60~quimb.calc.correlation\x60\\n\",",
  "    \"- :func:\x60~quimb.calc.pauli_correlations\x60\\n\",",
  "    \"- :func:\x60~quimb.calc.ent_cross_matrix\x60\\n\",",
  "    \"- :func:\x60~quimb.calc.is_degenerate\x60\\n\",",
  "    \"- :func:\x60~quimb.calc.is_eigenvector\x60\\n\",",
  "    \"- :func:\x60~quimb.calc.page_entropy\x60\\n\",",
  "    \"- :func:\x60~quimb.calc.heisenberg_energy\x60\\n\",",
  "    \"\\n\",",
  "    \"\\n\",",
  "    \"Approximate Spectral Functions\\n\",",
  "    \"==============================\\n\",",
  "    \"\\n\",",
  "    \"The module :py:mod:\x60~quimb.linalg.approx_spectral\x60, contains a Lanczos method for estimating any quantities of the form \x60\x60tr(fn(A))\x60\x60. Where \x60\x60A\x60\x60 is any operator that implements a dot product with a vector. For example, estimating the trace of the sqrt of a matrix would naievly require diagonalising it:\"",
  "   ]",
  "  \x7d,",
  "  \x7b",
  "   \"cell_type\": \"code\",",
  "   \"execution_count\": 1,",
  "   \"metadata\": \x7b\x7d,",
  "   \"outputs\": [",
  "    \x7b",
  "     \"data\": \x7b",
  "      \"text/plain\": [",
  "       \"54.32407060007722\"",
  "      ]",
  "     \x7d,",
  "     \"execution_count\": 1,",
  "     \"metadata\": \x7b\x7d,",
  "     \"output_type\": \"execute_result\"",
  "    \x7d",
  "   ],",
  "   \"source\": [",
  "    \"import quimb as qu\\n\",",
  "    \"\\n\",",
  "    \"rho = qu.rand_rho(2**12)\\n\",",
  "    \"rho_el = qu.eigvalsh(rho)\\n\",",
  "    \"sum(rho_el ** 0.5)\"",
  "   ]",
  "  \x7d,",
  "  \x7b",
  "   \"cell_type\": \"code\",",
  "   \"execution_count\": 2,",
  "   \"metadata\": \x7b\x7d,",
  "   \"outputs\": [",
  "    \x7b",
  "     \"data\": \x7b",
  "      \"text/plain\": [",
  "       \"54.52284527680732\"",
  "      ]",
  "     \x7d,",
  "     \"execution_count\": 2,",
  "     \"metadata\": \x7b\x7d,",
  "     \"output_type\": \"execute_result\"",
  "    \x7d",
  "   ],",
  "   \"source\": [",
  "    \"qu.tr_sqrt_approx(rho)\"",
  "   ]",
  "  \x7d,",
  "  \x7b",
  "   \"cell_type\": \"raw\",",
  "   \"metadata\": \x7b",
  "    \"raw_mimetype\": \"text/restructuredtext\"",
  "   \x7d,",
  "   \"source\": [",
  "    \"Diagonalization has a cost of \x60\x60O(n^3)\x60\x60, which is essentially reduced \\n\",",
  "    \"to \x60\x60O(k * n^2)\x60\x60 for this stochastic method. For a general function \\n\",",
  "    \":func:\x60~quimb.linalg.approx_spectral.approx_spectral_function\x60 can be used.\\n\",",
  "    \"\\n\",",
  "    \"\\n\",",
  "    \"However, the real advantage occurs when the full matrix does not need to be fully represented, e.g. in the case of \x27partial trace states\x27. One can then calculate quantities for subsystems that would not be possible to explicitly represent.\\n\",",
  "    \"\\n\",",
  "    \"For example, the partial trace, followed by partial transpose, followed by vector multiplication can be \x27lazily\x27 evaluated as a tensor contraction (see :py:func:\x60~quimb.linalg.approx_spectral.lazy_ptr_ppt_dot\x60). In this way the logarithmic negativity of subsytems can be efficiently calculated:\"",
  "   ]",
  "  \x7d,",
  "  \x7b",
  "   \"cell_type\": \"code\",",
  "   \"execution_count\": 3,",
  "   \"metadata\": \x7b\x7d,",
  "   \"outputs\": [",
  "    \x7b",
  "     \"data\": \x7b",
  "      \"text/plain\": [",
  "       \"5.737062140763265\"",
  "      ]",
  "     \x7d,",
  "     \"execution_count\": 3,",
  "     \"metadata\": \x7b\x7d,",
  "     \"output_type\": \"execute_result\"",
  "    \x7d",
  "   ],",
  "   \"source\": [",
  "    \"psi = qu.rand_ket(2**20)\\n\",",
  "    \"dims = [2**8, 2**4, 2**8]\\n\",",
  "    \"qu.logneg_subsys_approx(psi, dims, sysa=0, sysb=2)\"",
  "   ]",
  "  \x7d,",
  "  \x7b",
  "   \"cell_type\": \"raw\",",
  "   \"metadata\": \x7b",
  "    \"raw_mimetype\": \"text/restructuredtext\"",
  "   \x7d,",
  "   \"source\": [",
  "    \"Under the hood, this method makes use of :mod:\x60quimb.tensor\x60 functionality, which allows \x60various tensor contraction backends <http://optimized-einsum.readthedocs.io/en/latest/backends.html>\x60_ to be used (see :func:\x60~quimb.tensor.tensor_core.set_tensor_linop_backend\x60). These types of computation are particularly suited to the GPU and therefore if \x60cupy <https://cupy.chainer.org>\x60_ is installed it will be used automatically:\"",
  "   ]",
  "  \x7d,",
  "  \x7b",
  "   \"cell_type\": \"code\",",
  "   \"execution_count\": 4,",
  "   \"metadata\": \x7b\x7d,",
  "   \"outputs\": [",
  "    \x7b",
  "     \"name\": \"stdout\",",
  "     \"output_type\": \"stream\",",
  "     \"text\": [",
  "      \"799 ms ± 118 ms per loop (mean ± std. dev. of 7 runs, 1 loop each)\\n\"",
  "     ]",
  "    \x7d",
  "   ],",
  "   \"source\": [",
  "    \"%timeit qu.logneg_subsys_approx(psi, dims, sysa=0, sysb=2, backend=\x27numpy\x27)\"",
  "   ]",
  "  \x7d,",
  "  \x7b",
  "   \"cell_type\": \"code\",",
  "   \"execution_count\": 5,",
  "   \"metadata\": \x7b\x7d,",
  "   \"outputs\": [",
  "    \x7b",
  "     \"name\": \"stdout\",",
  "     \"output_type\": \"stream\",",
  "     \"text\": [",
  "      \"89.7 ms ± 2.87 ms per loop (mean ± std. dev. of 7 runs, 10 loops each)\\n\"",
  "     ]",
  "    \x7d",
  "   ],",
  "   \"source\": [",
  "    \"%timeit qu.logneg_subsys_approx(psi, dims, sysa=0, sysb=2, backend=\x27cupy\x27)\"",
  "   ]",
  "  \x7d",
  " ],",
  " \"metadata\": \x7b",
  "  \"celltoolbar\": \"Raw Cell Format\",",
  "  \"kernelspec\": \x7b",
  "   \"display_name\": \"Python 3\",",
  "   \"language\": \"python\",",
  "   \"name\": \"python3\"",
  "  \x7d,",
  "  \"language_info\": \x7b",
  "   \"codemirror_mode\": \x7b",
  "    \"name\": \"ipython\",",
  "    \"version\": 3",
  "   \x7d,",
  "   \"file_extension\": \".py\",",
  "   \"mimetype\": \"text/x-python\",",
  "   \"name\": \"python\",",
  "   \"nbconvert_exporter\": \"python\",",
  "   \"pygments_lexer\": \"ipython3\",",
  "   \"version\": \"3.6.6\"",
  "  \x7d",
  " \x7d,",
  " \"nbformat\": 4,",
  " \"nbformat_minor\": 2",
  "\x7d"]

/-- The cells of src/docs/dynamics and evolution.ipynb: cell type, source lines, output text lines (trailing newlines stripped). -/
def dynamicsCells : List Cell := [
  ⟨CellType.raw,
   ["##############",
    "Time Evolution",
    "##############",
    "",
    "Time evolutions in \x60\x60quimb\x60\x60 are handled by the class :class:\x60~quimb.evo.Evolution\x60, which is initialized with a starting state and hamiltonian.",
    "",
    "Basic Usage",
    "~~~~~~~~~~~",
    "",
    "Set up the :class:\x60~quimb.evo.Evolution\x60 object with a initial state and hamiltonian."],
   []⟩,
  ⟨CellType.code,
   ["from quimb import *",
    "",
    "p0 = rand_ket(2**10)",
    "h = ham_heis(10, sparse=True)",
    "evo = Evolution(p0, h)"],
   []⟩,
  ⟨CellType.markdown,
   ["",
    "Update it in a single shot to a new time and get the state,"],
   []⟩,
  ⟨CellType.code,
   ["evo.update_to(1)",
    "evo.pt"],
   ["qarray([[-0.004895-0.003752j],",
    "        [-0.023103+0.013373j],",
    "        [ 0.025707-0.022719j],",
    "        ...,",
    "        [-0.018055+0.013348j],",
    "        [-0.013808+0.000646j],",
    "        [ 0.007784-0.027032j]])"]⟩,
  ⟨CellType.markdown,
   ["Lazily generate the state at multiple times:"],
   []⟩,
  ⟨CellType.code,
   ["for pt in evo.at_times([2, 3, 4]):",
    "    print(expec(pt, p0))"],
   ["0.0008819837257778465",
    "0.008018772696880647",
    "0.007921004468599528"]⟩,
  ⟨CellType.raw,
   ["Methods of Updating",
    "~~~~~~~~~~~~~~~~~~~",
    "",
    "There are three methods of updating the state:",
    "",
    "    - \x60\x60Evolution(..., method=\x27integrate\x27)\x60\x60: use definite integration. ",
    "      Get system at each time step, only need action of Hamiltonian on ",
    "      state. Generally efficient. For pure and mixed states. The ",
    "      additional option \x60\x60int_small_step=\x7bFalse, True\x7d\x60\x60 determines ",
    "      whether a low or high order adaptive stepping scheme is used, ",
    "      giving naturally smaller or larger times steps. See ",
    "      :class:\x60scipy.integrate.ode\x60 for details, \x60\x60False\x60\x60 corresponds ",
    "      to \x60\x60\"dop853\"\x60\x60, \x60\x60True\x60\x60 to \x60\x60\"dopri5\"\x60\x60.",
    "",
    "    - \x60\x60Evolution(..., method=\x27solve\x27)\x60\x60. Diagonalize the hamiltonian, ",
    "      which once done, allows quickly updating to arbitrary times. ",
    "      Supports pure and mixed states, recomended for small systems.",
    "",
    "    -  \x60\x60Evolution(..., method=\x27expm\x27)\x60\x60: compute the evolved state ",
    "       using the action of the matrix exponential in a \x27single shot\x27 ",
    "       style. Only needs action of Hamiltonian, for very large systems ",
    "       can use distributed MPI. Only for pure states.",
    "",
    "Computing on the fly",
    "~~~~~~~~~~~~~~~~~~~~",
    "",
    "Sometimes, if integrating, it is best to just query the state at time-steps chosen dynamically by the adaptive scheme. This is achieved using the \x60\x60compute\x60\x60 keyword supplied to \x60\x60Evolution\x60\x60. It can also just be a convenient way to set up calculations as well:"],
   []⟩,
  ⟨CellType.code,
   ["p0 = rand_product_state(10)",
    "h = ham_heis(10, sparse=True)",
    "",
    "dims = [2] * 10",
    "sysa, sysb = (0, 1), (2, 3)",
    "",
    "def calc_t_and_logneg(t, pt):",
    "    ln = logneg_subsys(pt, dims, sysa, sysb)",
    "    return t, ln",
    "",
    "evo = Evolution(p0, h, compute=calc_t_and_logneg, progbar=True)",
    "evo.update_to(1)",
    "",
    "ts, lns = zip(*evo.results)"],
   ["100%|██████████| 100/100 [00:00<00:00, 3814.84%/s]"]⟩,
  ⟨CellType.code,
   ["ts"],
   ["(0.0, 0.26290682760247974, 0.5233369775481265, 0.7900587131899766, 1.0)"]⟩,
  ⟨CellType.code,
   ["lns"],
   ["(0.0,",
    " 0.2671006185064719,",
    " 0.47658641897909465,",
    " 0.6360265342188309,",
    " 0.7230360577935351)"]⟩,
  ⟨CellType.raw,
   ["If a dict of callables is supplied to \x60\x60compute\x60\x60, (each should take two arguments, the time, and the state, as above), \x60\x60Evolution.results\x60\x60 will itself be a dictionary containing the results of each function at each time step, under the respective key. This can be more convenient:"],
   []⟩,
  ⟨CellType.code,
   ["def calc_t(t, _):",
    "    return t",
    "",
    "def calc_logneg(_, pt):",
    "    return logneg_subsys(pt, [2]*10, 0, 1)",
    "",
    "evo = Evolution(p0, h, compute=\x7b\x27t\x27: calc_t, \x27ln\x27: calc_logneg\x7d, progbar=True)",
    "evo.update_to(1)"],
   ["100%|██████████| 100/100 [00:00<00:00, 19194.14%/s]"]⟩,
  ⟨CellType.code,
   ["evo.results"],
   ["\x7b\x27t\x27: [0.0, 0.26290682760247974, 0.5233369775481265, 0.7900587131899766, 1.0],",
    " \x27ln\x27: [0.0, 0.08526629069718968, 0.06419361844053166, 0.0, 0.0]\x7d"]⟩]

/-- The cells of src/docs/calculating quantities.ipynb: cell type, source lines, output text lines (trailing newlines stripped). -/
def calcCells : List Cell := [
  ⟨CellType.raw,
   ["######################",
    "Calculating Quantities",
    "######################",
    "",
    "There are various built-in functions to calculate quantities, not limited to:",
    "",
    "- :func:\x60~quimb.calc.fidelity\x60",
    "- :func:\x60~quimb.calc.purify\x60",
    "- :func:\x60~quimb.calc.dephase\x60",
    "- :func:\x60~quimb.calc.entropy\x60",
    "- :func:\x60~quimb.calc.mutinf\x60",
    "- :func:\x60~quimb.calc.mutinf_subsys\x60",
    "- :func:\x60~quimb.calc.schmidt_gap\x60",
    "- :func:\x60~quimb.calc.tr_sqrt\x60",
    "- :func:\x60~quimb.calc.partial_transpose\x60",
    "- :func:\x60~quimb.calc.logneg\x60",
    "- :func:\x60~quimb.calc.logneg_subsys\x60",
    "- :func:\x60~quimb.calc.negativity\x60",
    "- :func:\x60~quimb.calc.concurrence\x60",
    "- :func:\x60~quimb.calc.one_way_classical_information\x60",
    "- :func:\x60~quimb.calc.quantum_discord\x60",
    "- :func:\x60~quimb.calc.trace_distance\x60",
    "- :func:\x60~quimb.calc.decomp\x60",
    "- :func:\x60~quimb.calc.correlation\x60",
    "- :func:\x60~quimb.calc.pauli_correlations\x60",
    "- :func:\x60~quimb.calc.ent_cross_matrix\x60",
    "- :func:\x60~quimb.calc.is_degenerate\x60",
    "- :func:\x60~quimb.calc.is_eigenvector\x60",
    "- :func:\x60~quimb.calc.page_entropy\x60",
    "- :func:\x60~quimb.calc.heisenberg_energy\x60",
    "",
    "",
    "Approximate Spectral Functions",
    "==============================",
    "",
    "The module :py:mod:\x60~quimb.linalg.approx_spectral\x60, contains a Lanczos method for estimating any quantities of the form \x60\x60tr(fn(A))\x60\x60. Where \x60\x60A\x60\x60 is any operator that implements a dot product with a vector. For example, estimating the trace of the sqrt of a matrix would naievly require diagonalising it:"],
   []⟩,
  ⟨CellType.code,
   ["import quimb as qu",
    "",
    "rho = qu.rand_rho(2**12)",
    "rho_el = qu.eigvalsh(rho)",
    "sum(rho_el ** 0.5)"],
   ["54.32407060007722"]⟩,
  ⟨CellType.code,
   ["qu.tr_sqrt_approx(rho)"],
   ["54.52284527680732"]⟩,
  ⟨CellType.raw,
   ["Diagonalization has a cost of \x60\x60O(n^3)\x60\x60, which is essentially reduced ",
    "to \x60\x60O(k * n^2)\x60\x60 for this stochastic method. For a general function ",
    ":func:\x60~quimb.linalg.approx_spectral.approx_spectral_function\x60 can be used.",
    "",
    "",
    "However, the real advantage occurs when the full matrix does not need to be fully represented, e.g. in the case of \x27partial trace states\x27. One can then calculate quantities for subsystems that would not be possible to explicitly represent.",
    "",
    "For example, the partial trace, followed by partial transpose, followed by vector multiplication can be \x27lazily\x27 evaluated as a tensor contraction (see :py:func:\x60~quimb.linalg.approx_spectral.lazy_ptr_ppt_dot\x60). In this way the logarithmic negativity of subsytems can be efficiently calculated:"],
   []⟩,
  ⟨CellType.code,
   ["psi = qu.rand_ket(2**20)",
    "dims = [2**8, 2**4, 2**8]",
    "qu.logneg_subsys_approx(psi, dims, sysa=0, sysb=2)"],
   ["5.737062140763265"]⟩,
  ⟨CellType.raw,
   ["Under the hood, this method makes use of :mod:\x60quimb.tensor\x60 functionality, which allows \x60various tensor contraction backends <http://optimized-einsum.readthedocs.io/en/latest/backends.html>\x60_ to be used (see :func:\x60~quimb.tensor.tensor_core.set_tensor_linop_backend\x60). These types of computation are particularly suited to the GPU and therefore if \x60cupy <https://cupy.chainer.org>\x60_ is installed it will be used automatically:"],
   []⟩,
  ⟨CellType.code,
   ["%timeit qu.logneg_subsys_approx(psi, dims, sysa=0, sysb=2, backend=\x27numpy\x27)"],
   ["799 ms ± 118 ms per loop (mean ± std. dev. of 7 runs, 1 loop each)"]⟩,
  ⟨CellType.code,
   ["%timeit qu.logneg_subsys_approx(psi, dims, sysa=0, sysb=2, backend=\x27cupy\x27)"],
   ["89.7 ms ± 2.87 ms per loop (mean ± std. dev. of 7 runs, 10 loops each)"]⟩]

/-- The code cells of a notebook. -/
def codeCells (nb : List Cell) : List Cell :=
  nb.filter fun c => c.cellType == CellType.code

/-- All source lines of the code cells of a notebook, in order. -/
def codeLines (nb : List Cell) : List String :=
  ((codeCells nb).map Cell.source).flatten

/-- All source lines of all cells of a notebook (prose and code), in order. -/
def srcLines (nb : List Cell) : List String :=
  (nb.map Cell.source).flatten

/-- All raw lines of both notebook files. -/
def allRawLines : List String := dynamicsRaw ++ calcRaw

/-- Total number of file lines in the repository source (both notebooks). -/
def totalSourceLines : Nat := dynamicsRaw.length + calcRaw.length

/-- The def-statement lines occurring in the code cells of both notebooks. -/
def defStatementLines : List String :=
  (codeLines dynamicsCells ++ codeLines calcCells).filter fun l => lineStarts l "def "

/-- Index of the first line of `ls` containing `pat` (length of `ls` if none). -/
def firstIdx (ls : List String) (pat : String) : Nat :=
  ls.findIdx fun l => occursIn l pat

/-- Does the cell record any output containing a floating-point number? -/
def hasFloatOutput (c : Cell) : Bool := c.outputTexts.any hasFloatLit

/-- Does the cell call one of the unseeded random state generators shown in
the notebooks (`rand_ket`, `rand_rho`, `rand_product_state`)? -/
def cellMentionsRand (c : Cell) : Bool :=
  c.source.any fun l =>
    occursIn l "rand_ket(" || occursIn l "rand_rho(" || occursIn l "rand_product_state("

/-- Every cell of `nb` recording a floating-point output is preceded in the
notebook (weakly, the same cell allowed) by a code cell invoking one of the
unseeded random state generators. -/
def floatOutputsFromRand (nb : List Cell) : Bool :=
  (List.range nb.length).all fun i =>
    !(hasFloatOutput (nb.getD i default)) ||
      (List.range (i + 1)).any fun j => cellMentionsRand (nb.getD j default)

/-- The externally visible surface enumerated by the spec, as call patterns:
constructing an evolution object, advancing it to a target time, registering
compute callbacks, and the spectral-estimation function. -/
def enumeratedSurface : List String :=
  ["Evolution(", ".update_to(", "compute=", "logneg_subsys_approx"]

/-- Terms of error semantics (error conditions, exception kinds, recovery
behaviour) searched for, lowercased. -/
def errorTerms : List String :=
  ["error", "exception", "raise", "except", "recover", "failure", "fail",
   "traceback", "crash", "abort"]

/-- Terms of scheduling semantics (scheduling, suspension, ordering,
cancellation) searched for, lowercased. -/
def schedulingTerms : List String :=
  ["schedul", "suspen", "cancel", "ordering"]

/-- Modelled from the spec: quimb's Evolution class is not under src/.
The `compute` keyword of `Evolution` is either a single callable or a dict
of callables, "each should take two arguments, the time, and the state". -/
inductive Compute (T S R : Type) where
  | single (f : T → S → R)
  | dict (fs : List (String × (T → S → R)))

/-- Modelled from the spec: the results accumulator of an Evolution — a list
of results for a single callable, a keyed dictionary of result lists for a
dict of callables. -/
inductive Results (R : Type) where
  | single (rs : List R)
  | dict (rss : List (String × List R))
deriving DecidableEq

/-- Append one evaluation of each callable of a dict of callables to the
matching entry of the accumulator, in dict order. -/
def appendEach {T S R : Type} (t : T) (s : S) :
    List (String × (T → S → R)) → List (String × List R) → List (String × List R)
  | (k, f) :: fs, (_, rs) :: rss => (k, rs ++ [f t s]) :: appendEach t s fs rss
  | _, _ => []

/-- Modelled from the spec: evaluate the compute callbacks at internal time
`t` with state `s`, appending their results to the accumulator. -/
def recordResults {T S R : Type} (c : Compute T S R) (t : T) (s : S) :
    Results R → Results R
  | .single rs =>
    match c with
    | .single f => .single (rs ++ [f t s])
    | .dict _ => .single rs
  | .dict rss =>
    match c with
    | .dict fs => .dict (appendEach t s fs rss)
    | .single _ => .dict rss

/-- Modelled from the spec: an Evolution holds the current time, the current
state `pt`, its compute callbacks, and the results accumulated so far. -/
structure Evolution (T S R : Type) where
  t : T
  pt : S
  compute : Compute T S R
  results : Results R

/-- Modelled from the spec: `Evolution(p0, ..., compute=...)` starts at time
`t0` in state `p0` with an empty accumulator (an empty list for a single
callable; for a dict, each key mapped to an empty list). -/
def Evolution.init {T S R : Type} (t0 : T) (p0 : S) (c : Compute T S R) :
    Evolution T S R :=
  ⟨t0, p0, c,
    match c with
    | .single _ => .single []
    | .dict fs => .dict (fs.map fun kf => (kf.1, []))⟩

/-- Modelled from the spec: one internal step of the integration scheme,
reaching time `t` and state `s`; the compute callbacks are evaluated there. -/
def Evolution.step {T S R : Type} (e : Evolution T S R) (t : T) (s : S) :
    Evolution T S R :=
  ⟨t, s, e.compute, recordResults e.compute t s e.results⟩

/-- Modelled from the spec: `update_to` advances through the internal time
steps chosen by the integration scheme; `traj` is that list of
(time, state) pairs, supplied by the (unmodelled) integrator. -/
def Evolution.update_to {T S R : Type} (e : Evolution T S R)
    (traj : List (T × S)) : Evolution T S R :=
  traj.foldl (fun a p => a.step p.1 p.2) e

/-- Modelled from the spec: the three update methods of `Evolution` named in
the notebook. -/
inductive EvoMethod where
  | integrate
  | solve
  | expm
deriving DecidableEq, Fintype

/-- The two kinds of quantum state an update method may evolve. -/
inductive StateKind where
  | pureState
  | mixedState
deriving DecidableEq, Fintype

/-- Modelled from the spec: which kinds of state each update method accepts,
from the notebook bullets — integrate: "For pure and mixed states.", solve:
"Supports pure and mixed states", expm: "Only for pure states." -/
def methodSupports : EvoMethod → StateKind → Bool
  | .integrate, _ => true
  | .solve, _ => true
  | .expm, .pureState => true
  | .expm, .mixedState => false

/-- Modelled from the spec: for method=integrate, the scipy.integrate.ode
integrator selected by the `int_small_step` option — False gives "dop853",
True gives "dopri5". -/
def integrateStepper (int_small_step : Bool) : String :=
  if int_small_step then "dopri5" else "dop853"


theorem update_to_single_acc {T S R : Type} (traj : List (T × S)) :
    ∀ (t0 : T) (s0 : S) (f : T → S → R) (rs : List R),
      ((Evolution.mk t0 s0 (Compute.single f) (Results.single rs)).update_to traj).results
        = Results.single (rs ++ traj.map fun p => f p.1 p.2) := by
  induction traj with
  | nil => intro t0 s0 f rs; simp [Evolution.update_to]
  | cons p tl ih =>
      intro t0 s0 f rs
      have h := ih p.1 p.2 f (rs ++ [f p.1 p.2])
      simpa [Evolution.update_to, Evolution.step, recordResults,
        List.append_assoc] using h

theorem appendEach_map {T S R : Type} (t : T) (s : S)
    (fs : List (String × (T → S → R))) (g : String × (T → S → R) → List R) :
    appendEach t s fs (fs.map fun kf => (kf.1, g kf))
      = fs.map fun kf => (kf.1, g kf ++ [kf.2 t s]) := by
  induction fs with
  | nil => rfl
  | cons kf tl ih =>
      obtain ⟨k, f⟩ := kf
      simp [appendEach, ih]

theorem update_to_dict_acc {T S R : Type} (traj : List (T × S)) :
    ∀ (t0 : T) (s0 : S) (fs : List (String × (T → S → R)))
      (g : String × (T → S → R) → List R),
      ((Evolution.mk t0 s0 (Compute.dict fs)
          (Results.dict (fs.map fun kf => (kf.1, g kf)))).update_to traj).results
        = Results.dict (fs.map fun kf => (kf.1, g kf ++ traj.map fun p => kf.2 p.1 p.2)) := by
  induction traj with
  | nil => intro t0 s0 fs g; simp [Evolution.update_to]
  | cons p tl ih =>
      intro t0 s0 fs g
      have h := ih p.1 p.2 fs fun kf => g kf ++ [kf.2 p.1 p.2]
      simpa [Evolution.update_to, Evolution.step, recordResults, appendEach_map,
        List.append_assoc] using h

/-- C8: for every Evolution constructed with a compute argument, over any run
of internal time steps: with a single callable taking (time, state),
`results` is the list of that callable's return values, one per internal
time step; with a dict of such callables, `results` is a dict with exactly
the same keys, mapping each key to the list of that callable's results at
each time step. (The Evolution class is modelled from the spec; the internal
steps of the integrator are the input trajectory.) -/
theorem c8_compute_results {T S R : Type} (t0 : T) (p0 : S) (f : T → S → R)
    (fs : List (String × (T → S → R))) (traj : List (T × S)) :
    ((Evolution.init t0 p0 (Compute.single f)).update_to traj).results
        = Results.single (traj.map fun p => f p.1 p.2) ∧
    ((Evolution.init t0 p0 (Compute.dict fs)).update_to traj).results
        = Results.dict (fs.map fun kf => (kf.1, traj.map fun p => kf.2 p.1 p.2)) := by
  constructor
  · simpa [Evolution.init] using update_to_single_acc traj t0 p0 f []
  · simpa [Evolution.init] using update_to_dict_acc traj t0 p0 fs fun _ => []

/-- C1: the repository's source is exactly the two documentation notebooks,
477 file lines in total (the spec's "approximately 468"), all of it notebook
markup, prose and recorded example outputs: every cell is a raw, markdown or
code cell; the code cells define no class and no function beyond the three
two-line illustrative callbacks; the Evolution engine, the
spectral-approximation solver and the tensor-contraction backend are never
defined, only called. -/
theorem c1_docs_only :
    totalSourceLines = 477 ∧
    458 ≤ totalSourceLines ∧ totalSourceLines ≤ 478 ∧
    allRawLines.all
      (fun l => !(occursIn l "cell_type") ||
        (occursIn l "\"raw\"" || occursIn l "\"markdown\"" || occursIn l "\"code\"")) = true ∧
    (codeLines dynamicsCells ++ codeLines calcCells).all
      (fun l => !(lineStarts l "class ")) = true ∧
    defStatementLines =
      ["def calc_t_and_logneg(t, pt):", "def calc_t(t, _):", "def calc_logneg(_, pt):"] ∧
    allRawLines.all
      (fun l => !(occursIn l "def Evolution") && !(occursIn l "class Evolution") &&
        !(occursIn l "def logneg_subsys") && !(occursIn l "def approx_spectral") &&
        !(occursIn l "def lazy_ptr") && !(occursIn l "class Tensor")) = true ∧
    anyLine (codeLines dynamicsCells) "from quimb import *" = true ∧
    anyLine (codeLines calcCells) "import quimb as qu" = true := by
  refine ⟨by decide, by decide, by decide, by decide, by decide, by decide, by decide,
    by decide, by decide⟩

/-- C2, counterexample: the notebooks document calls beyond the surface the
spec enumerates — `qu.tr_sqrt_approx(rho)` is a documented call in
calculating quantities.ipynb that matches none of the enumerated surface
patterns, refuting "nothing beyond it is shown". -/
theorem c2_nothing_beyond_shown_cex :
    anyLine (codeLines calcCells) "qu.tr_sqrt_approx(rho)" = true ∧
    enumeratedSurface.all (fun p => !(occursIn "qu.tr_sqrt_approx(rho)" p)) = true := by
  refine ⟨by decide, by decide⟩

/-- C2 (amended): every element of the surface the spec enumerates appears as
a documented call in the notebooks — an evolution object constructed from a
state and a Hamiltonian, advanced to a target time, callbacks registered via
the compute keyword (single and dict) and evaluated at each internal step,
and logneg_subsys_approx taking a subsystem dimension list and a backend
choice — but the notebooks also show further calls beyond this enumerated
surface (e.g. evo.at_times, qu.tr_sqrt_approx, qu.eigvalsh). -/
theorem c2_enumerated_surface_documented :
    anyLine (codeLines dynamicsCells) "evo = Evolution(p0, h)" = true ∧
    anyLine (codeLines dynamicsCells) "evo.update_to(1)" = true ∧
    anyLine (codeLines dynamicsCells) "compute=calc_t_and_logneg" = true ∧
    anyLine (codeLines dynamicsCells)
      "compute=\x7b\x27t\x27: calc_t, \x27ln\x27: calc_logneg\x7d" = true ∧
    anyLine (srcLines dynamicsCells)
      "time-steps chosen dynamically by the adaptive scheme" = true ∧
    anyLine (srcLines dynamicsCells) "results of each function at each time step" = true ∧
    anyLine (srcLines dynamicsCells)
      "each should take two arguments, the time, and the state" = true ∧
    anyLine (codeLines calcCells) "dims = [2**8, 2**4, 2**8]" = true ∧
    anyLine (codeLines calcCells)
      "qu.logneg_subsys_approx(psi, dims, sysa=0, sysb=2)" = true ∧
    anyLine (codeLines calcCells) "backend=\x27cupy\x27" = true ∧
    anyLine (codeLines dynamicsCells) "evo.at_times" = true ∧
    anyLine (codeLines calcCells) "qu.tr_sqrt_approx" = true ∧
    anyLine (codeLines calcCells) "qu.eigvalsh" = true := by
  refine ⟨by decide, by decide, by decide, by decide, by decide, by decide, by decide,
    by decide, by decide, by decide, by decide, by decide, by decide⟩

/-- C3: the time-evolution driver documented in the notebooks supports
exactly three integration strategies: the string "method=" occurs exactly
three times across both files, in method='integrate' (definite integration
needing only the action of the Hamiltonian on the state), method='solve'
(diagonalize the Hamiltonian, then quickly update to arbitrary times) and
method='expm' (action of the matrix exponential in a single shot). -/
theorem c3_three_update_methods :
    anyLine (srcLines dynamicsCells) "There are three methods of updating the state" = true ∧
    countInLines dynamicsRaw "method=" = 3 ∧
    countInLines calcRaw "method=" = 0 ∧
    anyLine (srcLines dynamicsCells) "method=\x27integrate\x27" = true ∧
    anyLine (srcLines dynamicsCells) "method=\x27solve\x27" = true ∧
    anyLine (srcLines dynamicsCells) "method=\x27expm\x27" = true ∧
    anyLine (srcLines dynamicsCells) "use definite integration" = true ∧
    anyLine (srcLines dynamicsCells) "only need action of Hamiltonian on" = true ∧
    anyLine (srcLines dynamicsCells) "adaptive stepping scheme" = true ∧
    anyLine (srcLines dynamicsCells) "Diagonalize the hamiltonian," = true ∧
    anyLine (srcLines dynamicsCells) "allows quickly updating to arbitrary times" = true ∧
    anyLine (srcLines dynamicsCells)
      "the action of the matrix exponential in a \x27single shot\x27" = true := by
  refine ⟨by decide, by decide, by decide, by decide, by decide, by decide, by decide,
    by decide, by decide, by decide, by decide, by decide⟩

/-- C4: the approximate spectral estimator documented in the notebooks
estimates quantities of the form tr(fn(A)) by a Lanczos-based stochastic
method for any operator A implementing a dot product with a vector, and
evaluates partial trace, then partial transpose, then vector multiplication
lazily as a tensor contraction (lazy_ptr_ppt_dot), so that the logarithmic
negativity of subsystems can be calculated without explicitly representing
the full matrix. -/
theorem c4_approx_spectral_documented :
    anyLine (srcLines calcCells)
      "contains a Lanczos method for estimating any quantities of the form" = true ∧
    anyLine (srcLines calcCells) "tr(fn(A))" = true ∧
    anyLine (srcLines calcCells)
      "any operator that implements a dot product with a vector" = true ∧
    anyLine (srcLines calcCells) "approx_spectral_function" = true ∧
    anyLine (srcLines calcCells) "lazy_ptr_ppt_dot" = true ∧
    anyLine (srcLines calcCells)
      "the partial trace, followed by partial transpose, followed by vector multiplication can be \x27lazily\x27 evaluated as a tensor contraction" = true ∧
    anyLine (srcLines calcCells)
      "logarithmic negativity of subsytems can be efficiently calculated" = true ∧
    anyLine (srcLines calcCells) "would not be possible to explicitly represent" = true := by
  refine ⟨by decide, by decide, by decide, by decide, by decide, by decide, by decide,
    by decide⟩

/-- C5: nowhere in either source notebook are error conditions, exception
kinds, or recovery behaviour discussed: no line of either file contains any
of the error-semantics terms, in any letter case. -/
theorem c5_no_error_semantics :
    allRawLines.all
      (fun l => errorTerms.all fun t => !(occursInsen l t)) = true := by decide

/-- C6: every cell of either notebook recording a floating-point example
output is preceded (weakly) by a code cell invoking one of the unseeded
random generators; the only random generators invoked are rand_ket, rand_rho
and rand_product_state; and the string "seed" occurs nowhere in either file,
so no seed is ever set. -/
theorem c6_outputs_unseeded_random :
    floatOutputsFromRand dynamicsCells = true ∧
    floatOutputsFromRand calcCells = true ∧
    countInLines allRawLines "rand_" = 4 ∧
    countInLines allRawLines "rand_ket(" = 2 ∧
    countInLines allRawLines "rand_rho(" = 1 ∧
    countInLines allRawLines "rand_product_state(" = 1 ∧
    allRawLines.all (fun l => !(occursInsen l "seed")) = true := by
  refine ⟨by decide, by decide, by decide, by decide, by decide, by decide, by decide⟩

/-- C7: the notebooks mention optional GPU-backed execution for tensor
contractions (a cupy backend selectable via the backend argument, used
automatically when cupy is installed) and a progress bar during iterative
stepping (the progbar=True option of Evolution), and state no scheduling,
suspension, ordering, or cancellation semantics for either. -/
theorem c7_gpu_progbar_no_semantics :
    anyLine (srcLines calcCells) "set_tensor_linop_backend" = true ∧
    anyLine (srcLines calcCells) "particularly suited to the GPU" = true ∧
    anyLine (srcLines calcCells) "is installed it will be used automatically" = true ∧
    anyLine (codeLines calcCells) "backend=\x27cupy\x27" = true ∧
    anyLine (codeLines calcCells) "backend=\x27numpy\x27" = true ∧
    anyLine (codeLines dynamicsCells) "progbar=True" = true ∧
    allRawLines.all
      (fun l => schedulingTerms.all fun t => !(occursInsen l t)) = true := by
  refine ⟨by decide, by decide, by decide, by decide, by decide, by decide, by decide⟩

/-- C9: the three update methods differ in which kinds of state they accept:
integrate and solve support both pure and mixed states, expm only pure
states — per the modelled support table and the notebook bullets, each
support phrase lying inside its own method's bullet. -/
theorem c9_method_state_support :
    methodSupports EvoMethod.integrate StateKind.pureState = true ∧
    methodSupports EvoMethod.integrate StateKind.mixedState = true ∧
    methodSupports EvoMethod.solve StateKind.pureState = true ∧
    methodSupports EvoMethod.solve StateKind.mixedState = true ∧
    methodSupports EvoMethod.expm StateKind.pureState = true ∧
    methodSupports EvoMethod.expm StateKind.mixedState = false ∧
    firstIdx (srcLines dynamicsCells) "method=\x27integrate\x27"
      < firstIdx (srcLines dynamicsCells) "For pure and mixed states." ∧
    firstIdx (srcLines dynamicsCells) "For pure and mixed states."
      < firstIdx (srcLines dynamicsCells) "method=\x27solve\x27" ∧
    firstIdx (srcLines dynamicsCells) "method=\x27solve\x27"
      < firstIdx (srcLines dynamicsCells) "Supports pure and mixed states" ∧
    firstIdx (srcLines dynamicsCells) "Supports pure and mixed states"
      < firstIdx (srcLines dynamicsCells) "method=\x27expm\x27" ∧
    firstIdx (srcLines dynamicsCells) "method=\x27expm\x27"
      < firstIdx (srcLines dynamicsCells) "Only for pure states." := by
  refine ⟨by decide, by decide, by decide, by decide, by decide, by decide, by decide,
    by decide, by decide, by decide, by decide⟩

/-- C10: for method='integrate', the int_small_step option selects the
scipy.integrate.ode integrator deterministically: False selects "dop853",
True selects "dopri5" — per the modelled selector and the notebook's
integrate bullet, where the option is documented. -/
theorem c10_int_small_step :
    integrateStepper false = "dop853" ∧
    integrateStepper true = "dopri5" ∧
    anyLine (srcLines dynamicsCells) "int_small_step=\x7bFalse, True\x7d" = true ∧
    anyLine (srcLines dynamicsCells) "scipy.integrate.ode" = true ∧
    anyLine (srcLines dynamicsCells) "\x60\x60False\x60\x60 corresponds" = true ∧
    anyLine (srcLines dynamicsCells)
      "to \x60\x60\"dop853\"\x60\x60, \x60\x60True\x60\x60 to \x60\x60\"dopri5\"\x60\x60" = true ∧
    firstIdx (srcLines dynamicsCells) "method=\x27integrate\x27"
      < firstIdx (srcLines dynamicsCells) "int_small_step" ∧
    firstIdx (srcLines dynamicsCells) "int_small_step"
      < firstIdx (srcLines dynamicsCells) "method=\x27solve\x27" := by
  refine ⟨by decide, by decide, by decide, by decide, by decide, by decide, by decide,
    by decide⟩

end QuimbDocs
